import Mathlib

/-!
Verification development for the container-backend layer of the
coco/ipynbsrv `backends` repository.

The repository contains two near-duplicate revisions of the same module:
`coco/backends/container_backends.py` and `ipynbsrv/backends/container_backends.py`.
Both define a local Docker adapter (class `Docker`) and an HTTP remote proxy
(class `HttpRemote`).  Where the two revisions agree we embed the function once;
where they differ we embed both, under `coco_` and `ipynbsrv_` names.

The Docker daemon itself is external to the repository.  It is modelled as a
finite `Engine` state: a list of containers (each with its docker `State.Running`
and `State.Paused` flags) and a list of image names (`repository:tag` strings).
Docker client calls (`inspect_container`, `pause`, `unpause`, `stop`, `start`,
`remove_container`, `commit`, `create_container`) are modelled as total
functions on this state that either succeed or fail with a 404-style or
server-style `DockerErr`, following the daemon behaviour the Python code is
written against: `pause` fails unless the container is running and not paused,
`unpause` fails unless paused, `stop` fails on a paused container and is a
no-op success on a stopped one, and `remove` with `force` succeeds in any state.
Each client call is atomic: when it fails it performs no state change, which is
how "raises an exception" is modelled by `Except.error` without an engine.
-/

/-- Normalized lifecycle status of the container contract
(`CONTAINER_STATUS_STOPPED / _RUNNING / _SUSPENDED`). -/
inductive ContainerStatus
  | stopped
  | running
  | suspended
deriving DecidableEq, BEq, Repr

/-- A container as the Docker daemon tracks it: primary key `id`, the
user-visible `name` (docker's `Name` field is this with a leading slash),
and the two `State` flags the adapter inspects. -/
structure DCont where
  id : String
  name : String
  running : Bool
  paused : Bool
deriving DecidableEq, Repr

/-- The Docker engine state: containers, images (identified by their
`repository:tag` name) and a counter supplying fresh container ids. -/
structure Engine where
  containers : List DCont
  images : List String
  nextId : Nat
deriving DecidableEq, Repr

/-- Failures of a raw docker client call: a 404 (`requests.codes.not_found`)
response or any other daemon error. -/
inductive DockerErr
  | notFound
  | server
deriving DecidableEq, Repr

/-- The error taxonomy of the contract layer (`coco.contract.errors` /
`ipynbsrv.contract.errors`), plus `pyIndexError` for a native Python
`IndexError` escaping uncaught (see `coco_create_container_image`). -/
inductive BErr
  | containerNotFound
  | containerImageNotFound
  | containerSnapshotNotFound
  | illegalContainerState
  | containerBackend (msg : Option String)
  | connection
  | pyIndexError
deriving DecidableEq, Repr

/-- The normalized container record `make_container_contract_conform` builds:
`{KEY_PK: id, CONTAINER_KEY_STATUS: status}`.  (The ipynbsrv revision also
annotates port mappings; that field is not modelled, the pk/status logic of the
two revisions is identical.) -/
structure ContainerRecord where
  pk : String
  status : ContainerStatus
deriving DecidableEq, Repr

/-- Return shape of `create_container`: either the plain container record, or
the composite `{CONTAINER_KEY_CLONE_CONTAINER, CONTAINER_KEY_CLONE_IMAGE}`
record on the clone path. -/
inductive CreateRet
  | plain (container : ContainerRecord)
  | clone (container : ContainerRecord) (image : String)
deriving DecidableEq, Repr

/-- A normalized port mapping `{internal, external, address}`. -/
structure PortMapping where
  internalPort : Nat
  externalPort : Nat
  address : String
deriving DecidableEq, Repr

/-- A normalized volume `{source, target}`. -/
structure VolumeSpec where
  source : String
  target : String
deriving DecidableEq, Repr

/-- Docker resolves a container reference by id or by name
(`inspect_container` accepts either). -/
def matchesKey (k : String) (c : DCont) : Bool :=
  c.id == k || c.name == k

/-- Look a container up in the engine, by id or name (first match). -/
def findContainer (e : Engine) (k : String) : Option DCont :=
  e.containers.find? (matchesKey k)

/-- Apply `f` to every container matching key `k` (model of a daemon-side
state change addressed by id or name). -/
def mapCont (e : Engine) (k : String) (f : DCont → DCont) : Engine :=
  { e with containers := e.containers.map (fun c => if matchesKey k c then f c else c) }

/-- The id the daemon assigns to the next created container. -/
def freshIdOf (e : Engine) : String :=
  "cid-" ++ toString e.nextId

/-- `client.pause`: fails with 404 if unknown, server error if the container
is not running or already paused; otherwise sets the `Paused` flag. -/
def clientPause (e : Engine) (c : String) : Except DockerErr Engine :=
  match findContainer e c with
  | Option.none => Except.error DockerErr.notFound
  | Option.some st =>
    if !st.running || st.paused then Except.error DockerErr.server
    else Except.ok (mapCont e c (fun x => { x with paused := true }))

/-- `client.unpause`: fails with 404 if unknown, server error if not paused;
otherwise clears the `Paused` flag. -/
def clientUnpause (e : Engine) (c : String) : Except DockerErr Engine :=
  match findContainer e c with
  | Option.none => Except.error DockerErr.notFound
  | Option.some st =>
    if !st.paused then Except.error DockerErr.server
    else Except.ok (mapCont e c (fun x => { x with paused := false }))

/-- `client.stop`: fails with 404 if unknown, server error on a paused
container (which is why the adapter resumes before stopping); a no-op success
on an already-stopped one; otherwise clears the `Running` flag. -/
def clientStop (e : Engine) (c : String) : Except DockerErr Engine :=
  match findContainer e c with
  | Option.none => Except.error DockerErr.notFound
  | Option.some st =>
    if st.paused then Except.error DockerErr.server
    else Except.ok (mapCont e c (fun x => { x with running := false }))

/-- `client.start`: fails with 404 if unknown, otherwise sets the `Running`
flag. -/
def clientStart (e : Engine) (c : String) : Except DockerErr Engine :=
  match findContainer e c with
  | Option.none => Except.error DockerErr.notFound
  | Option.some _ => Except.ok (mapCont e c (fun x => { x with running := true }))

/-- `client.remove_container`: 404 if unknown; without `force` a running
container cannot be removed (409 conflict); with `force` removal succeeds in
any state. -/
def clientRemove (e : Engine) (c : String) (force : Bool) : Except DockerErr Engine :=
  match findContainer e c with
  | Option.none => Except.error DockerErr.notFound
  | Option.some st =>
    if !force && st.running then Except.error DockerErr.server
    else Except.ok { e with containers := e.containers.filter (fun x => !(matchesKey c x)) }

/-- `client.commit`: freeze the container's filesystem into a new image named
`repository:tag`; 404 if the container is unknown. -/
def clientCommit (e : Engine) (container repo tag : String) : Except DockerErr Engine :=
  match findContainer e container with
  | Option.none => Except.error DockerErr.notFound
  | Option.some _ => Except.ok { e with images := (repo ++ ":" ++ tag) :: e.images }

/-- `client.create_container`: 404 if the image is unknown, server error (409)
if the name is taken; otherwise a fresh container is created in the stopped,
unpaused state (docker `create` does not start it). -/
def clientCreate (e : Engine) (image : String) (name : String) : Except DockerErr Engine :=
  if !(e.images.contains image) then Except.error DockerErr.notFound
  else if e.containers.any (fun c => c.name == name) then Except.error DockerErr.server
  else Except.ok { e with
    containers := { id := freshIdOf e, name := name, running := false, paused := false } :: e.containers,
    nextId := e.nextId + 1 }

/-- `Docker.container_exists` (identical in both revisions): inspect the
container, translating a 404 into `False`.  In the engine model the inspect
can only succeed or 404, so this is total. -/
def container_exists (e : Engine) (c : String) : Bool :=
  (findContainer e c).isSome

/-- `Docker.container_image_exists` (identical in both revisions): inspect the
image, translating 404 into `False`. -/
def docker_container_image_exists (e : Engine) (img : String) : Bool :=
  e.images.contains img

/-- `Docker.container_snapshot_exists` (identical in both revisions): it
delegates directly to `container_image_exists`, with no check on the snapshot
naming convention. -/
def docker_container_snapshot_exists (e : Engine) (s : String) : Bool :=
  docker_container_image_exists e s

/-- `Docker.container_is_running` (identical in both revisions): existence
precheck, then `inspect_container(c)['State']['Running'] is True`. -/
def docker_container_is_running (e : Engine) (c : String) : Except BErr Bool :=
  if !(container_exists e c) then Except.error BErr.containerNotFound
  else match findContainer e c with
    | Option.none => Except.error BErr.containerNotFound
    | Option.some st => Except.ok st.running

/-- `Docker.container_is_suspended` (identical in both revisions): existence
precheck, then `inspect_container(c)['State']['Paused'] is True`. -/
def docker_container_is_suspended (e : Engine) (c : String) : Except BErr Bool :=
  if !(container_exists e c) then Except.error BErr.containerNotFound
  else match findContainer e c with
    | Option.none => Except.error BErr.containerNotFound
    | Option.some st => Except.ok st.paused

/-- The status derivation chain of `make_container_contract_conform`
(identical in both revisions), abstracted over the two inspected flags:
`if not running: STOPPED elif paused: SUSPENDED else: RUNNING`. -/
def statusOf (running paused : Bool) : ContainerStatus :=
  if !running then ContainerStatus.stopped
  else if paused then ContainerStatus.suspended
  else ContainerStatus.running

/-- `Docker.make_container_contract_conform` for the container with primary
key `contId`: it re-queries `container_is_running(contId)` and, only when that
is true, `container_is_suspended(contId)`, then builds `{pk, status}`. -/
def coco_make_container_contract_conform (e : Engine) (contId : String) :
    Except BErr ContainerRecord :=
  match docker_container_is_running e contId with
  | Except.error er => Except.error er
  | Except.ok r =>
    if !r then Except.ok { pk := contId, status := ContainerStatus.stopped }
    else match docker_container_is_suspended e contId with
      | Except.error er => Except.error er
      | Except.ok s =>
        if s then Except.ok { pk := contId, status := ContainerStatus.suspended }
        else Except.ok { pk := contId, status := ContainerStatus.running }

/-- `Docker.get_container`: existence precheck, inspect, then normalize.  Any
exception out of the normalization step (including a contract error from the
nested `container_is_running` call) is caught by the generic
`except Exception` clause and re-wrapped as `ContainerBackendError`. -/
def coco_get_container (e : Engine) (c : String) : Except BErr ContainerRecord :=
  if !(container_exists e c) then Except.error BErr.containerNotFound
  else match findContainer e c with
    | Option.none => Except.error BErr.containerNotFound
    | Option.some cont =>
      match coco_make_container_contract_conform e cont.id with
      | Except.ok rec => Except.ok rec
      | Except.error _ => Except.error (BErr.containerBackend Option.none)

/-- `Docker.start_container` of the coco revision: existence precheck only
(the running-state guard is commented out in the source), then `client.start`,
any failure wrapped as `ContainerBackendError`. -/
def coco_start_container (e : Engine) (c : String) : Except BErr Engine :=
  if !(container_exists e c) then Except.error BErr.containerNotFound
  else match clientStart e c with
    | Except.error _ => Except.error (BErr.containerBackend Option.none)
    | Except.ok e2 => Except.ok e2

/-- `Docker.start_container` of the ipynbsrv revision: existence precheck,
then `IllegalState` if the container is already running, then `client.start`. -/
def ipynbsrv_start_container (e : Engine) (c : String) : Except BErr Engine :=
  if !(container_exists e c) then Except.error BErr.containerNotFound
  else match findContainer e c with
    | Option.none => Except.error BErr.containerNotFound
    | Option.some st =>
      if st.running then Except.error BErr.illegalContainerState
      else match clientStart e c with
        | Except.error _ => Except.error (BErr.containerBackend Option.none)
        | Except.ok e2 => Except.ok e2

/-- `Docker.resume_container` (coco revision; the ipynbsrv one is identical):
existence precheck, `IllegalState` unless the container is running AND
suspended, then `client.unpause`; a 404 from the client is (mis)raised as
`ContainerImageNotFoundError` in the source, other failures become
`ContainerBackendError`. -/
def coco_resume_container (e : Engine) (c : String) : Except BErr Engine :=
  if !(container_exists e c) then Except.error BErr.containerNotFound
  else match findContainer e c with
    | Option.none => Except.error BErr.containerNotFound
    | Option.some st =>
      if !st.running || !st.paused then Except.error BErr.illegalContainerState
      else match clientUnpause e c with
        | Except.error DockerErr.notFound => Except.error BErr.containerImageNotFound
        | Except.error _ => Except.error (BErr.containerBackend Option.none)
        | Except.ok e2 => Except.ok e2

/-- `Docker.stop_container` of the coco revision: existence precheck (the
running-state guard is commented out), a swallowed best-effort
`resume_container` (`try: ... except: pass`), then `client.stop(timeout=0)`. -/
def coco_stop_container (e : Engine) (c : String) : Except BErr Engine :=
  if !(container_exists e c) then Except.error BErr.containerNotFound
  else
    let e1 := match coco_resume_container e c with
      | Except.ok e' => e'
      | Except.error _ => e
    match clientStop e1 c with
    | Except.error DockerErr.notFound => Except.error BErr.containerImageNotFound
    | Except.error _ => Except.error (BErr.containerBackend Option.none)
    | Except.ok e2 => Except.ok e2

/-- `Docker.suspend_container` of the coco revision.  The suspended-state
guard is commented out in this revision
(`if not self.container_is_running(container):  # or self.container_is_suspended(container):`),
so only `not running` raises `IllegalState`; an already-suspended container
falls through to `client.pause`, whose failure surfaces as
`ContainerBackendError` (a 404 would be raised as `ContainerImageNotFoundError`,
as written in the source). -/
def coco_suspend_container (e : Engine) (c : String) : Except BErr Engine :=
  if !(container_exists e c) then Except.error BErr.containerNotFound
  else match findContainer e c with
    | Option.none => Except.error BErr.containerNotFound
    | Option.some st =>
      if !st.running then Except.error BErr.illegalContainerState
      else match clientPause e c with
        | Except.error DockerErr.notFound => Except.error BErr.containerImageNotFound
        | Except.error _ => Except.error (BErr.containerBackend Option.none)
        | Except.ok e2 => Except.ok e2

/-- `Docker.suspend_container` of the ipynbsrv revision: here the guard is
`if not self.container_is_running(container) or self.container_is_suspended(container)`,
so both a stopped and an already-suspended container raise `IllegalState`. -/
def ipynbsrv_suspend_container (e : Engine) (c : String) : Except BErr Engine :=
  if !(container_exists e c) then Except.error BErr.containerNotFound
  else match findContainer e c with
    | Option.none => Except.error BErr.containerNotFound
    | Option.some st =>
      if !st.running || st.paused then Except.error BErr.illegalContainerState
      else match clientPause e c with
        | Except.error DockerErr.notFound => Except.error BErr.containerImageNotFound
        | Except.error _ => Except.error (BErr.containerBackend Option.none)
        | Except.ok e2 => Except.ok e2

/-- The swallowed resume-then-stop cascade inside the coco revision's
`delete_container`:
`try: if suspended: resume; if running: stop; except: pass`.
A failure at any step abandons the rest of the block but keeps the state
changes already made (each modelled client call is atomic). -/
def cascadeResumeStop (e : Engine) (c : String) : Engine :=
  match docker_container_is_suspended e c with
  | Except.error _ => e
  | Except.ok s =>
    match (if s then coco_resume_container e c else Except.ok e) with
    | Except.error _ => e
    | Except.ok e1 =>
      match docker_container_is_running e1 c with
      | Except.error _ => e1
      | Except.ok r =>
        match (if r then coco_stop_container e1 c else Except.ok e1) with
        | Except.error _ => e1
        | Except.ok e2 => e2

/-- `Docker.delete_container` of the coco revision: existence precheck, the
swallowed resume-then-stop cascade, then `client.remove_container(force=True)`
whose 404 is raised as `ContainerNotFoundError` and whose other failures
become `ContainerBackendError`. -/
def coco_delete_container (e : Engine) (c : String) : Except BErr Engine :=
  if !(container_exists e c) then Except.error BErr.containerNotFound
  else
    let e1 := cascadeResumeStop e c
    match clientRemove e1 c true with
    | Except.error DockerErr.notFound => Except.error BErr.containerNotFound
    | Except.error _ => Except.error (BErr.containerBackend Option.none)
    | Except.ok e2 => Except.ok e2

/-- `Docker.delete_container(container, force=False)` of the ipynbsrv
revision: no cascade; existence precheck, then
`if force is not True and self.container_is_running(container): raise IllegalContainerStateError`,
then `client.remove_container(force=(force is True))`. -/
def ipynbsrv_delete_container (e : Engine) (c : String) (force : Bool) : Except BErr Engine :=
  if !(container_exists e c) then Except.error BErr.containerNotFound
  else match findContainer e c with
    | Option.none => Except.error BErr.containerNotFound
    | Option.some st =>
      if !force && st.running then Except.error BErr.illegalContainerState
      else match clientRemove e c force with
        | Except.error DockerErr.notFound => Except.error BErr.containerNotFound
        | Except.error _ => Except.error (BErr.containerBackend Option.none)
        | Except.ok e2 => Except.ok e2

/-- Python `str.split(sep)` for a one-character separator: split at every
occurrence, keeping empty segments (`"".split(':') == ['']`,
`":".split(':') == ['', '']`). -/
def splitCh (sep : Char) : List Char → List (List Char)
  | [] => [[]]
  | x :: xs =>
    match splitCh sep xs with
    | [] => [[]]
    | h :: t => if x = sep then [] :: h :: t else (x :: h) :: t

/-- Python list indexing `l[i]`, failing like an `IndexError` when out of
range. -/
def pyIdx (l : List (List Char)) (i : Nat) : Except Unit (List Char) :=
  match l.get? i with
  | Option.some v => Except.ok v
  | Option.none => Except.error ()

/-- One scan step of Python `str.replace(pat, rep)` (leftmost,
non-overlapping), with explicit fuel; `replaceL` supplies fuel equal to the
input length, which is always sufficient since a match consumes at least one
character. -/
def replaceFuel (pat rep : List Char) : Nat → List Char → List Char
  | _, [] => []
  | 0, l => l
  | Nat.succ n, x :: xs =>
    if pat.isPrefixOf (x :: xs) && !pat.isEmpty then
      rep ++ replaceFuel pat rep n ((x :: xs).drop pat.length)
    else x :: replaceFuel pat rep n xs

/-- Python `str.replace(pat, rep)` on character lists. -/
def replaceL (pat rep l : List Char) : List Char :=
  replaceFuel pat rep l.length l

/-- The base64 alphabet of `base64.standard_b64encode`. -/
def b64Alphabet : List Char :=
  ("ABCDEFGHIJKLMNOPQRSTUVWXYZabcdefghijklmnopqrstuvwxyz0123456789+/").data

/-- The base64 character for a 6-bit group. -/
def b64Char (i : Nat) : Char :=
  b64Alphabet.getD i ('=')

/-- Encode a byte list in standard base64, three bytes at a time, with `=`
padding. -/
def b64Chunks : List Nat → List Char
  | [] => []
  | [b1] => [b64Char (b1 / 4), b64Char (b1 % 4 * 16), '=', '=']
  | [b1, b2] => [b64Char (b1 / 4), b64Char (b1 % 4 * 16 + b2 / 16), b64Char (b2 % 16 * 4), '=']
  | b1 :: b2 :: b3 :: rest =>
    b64Char (b1 / 4) :: b64Char (b1 % 4 * 16 + b2 / 16) ::
      b64Char (b2 % 16 * 4 + b3 / 64) :: b64Char (b3 % 64) :: b64Chunks rest

/-- `base64.standard_b64encode` on an (ASCII) identifier string, bytes taken
as the character codes. -/
def standard_b64encode (s : String) : String :=
  String.mk (b64Chunks (s.data.map Char.toNat))

/-- The anchored pattern `^/{prefix}u(\d+)-(.+)$` used by
`get_internal_container_image_name` in both revisions (with their respective
`CONTAINER_NAME_PREFIX`).  Returns the digit group and the free-text group on
a match.  The regex's greedy `(\d+)` is equivalent to a maximal digit run here
because on backtracking the following character would be a digit, not `-`;
`.` is modelled as any character (container names contain no newline). -/
def parseNameWith (pre : List Char) (l : List Char) : Option (List Char × List Char) :=
  if (('/' :: pre) ++ ['u']).isPrefixOf l then
    let rest := l.drop (pre.length + 2)
    let ds := rest.takeWhile Char.isDigit
    match rest.dropWhile Char.isDigit with
    | '-' :: tl => if ds.isEmpty || tl.isEmpty then Option.none else Option.some (ds, tl)
    | _ => Option.none
  else Option.none

/-- The `re.sub` of `get_internal_container_image_name`: rewrite
`/{prefix}u{uid}-{name}` into `{prefix}u{uid}/{name}:{tag}`; an input that
does not match the anchored pattern is returned unchanged (the `re.sub`
behaviour). -/
def rewriteNameWith (pre : List Char) (containerName : List Char) (tag : String) : String :=
  match parseNameWith pre containerName with
  | Option.some (ds, rest) =>
    String.mk (pre ++ ('u' :: ds) ++ ('/' :: rest) ++ (':' :: tag.data))
  | Option.none => String.mk containerName

/-- `Docker.get_internal_container_image_name` of the coco revision
(`CONTAINER_NAME_PREFIX = 'coco-'`): existence precheck, inspect (docker's
`Name` is the stored name with a leading slash), regex rewrite, and — if a
registry is configured — prepend `registry + '/'`. -/
def coco_get_internal_container_image_name (reg : Option String) (e : Engine)
    (container : String) (tag : String) : Except BErr String :=
  if !(container_exists e container) then Except.error BErr.containerNotFound
  else match findContainer e container with
    | Option.none => Except.error BErr.containerNotFound
    | Option.some cont =>
      let rewritten := rewriteNameWith (("coco-").data) (('/' :: cont.name.data)) tag
      match reg with
      | Option.some r => Except.ok (r ++ "/" ++ rewritten)
      | Option.none => Except.ok rewritten

/-- `Docker.get_internal_container_image_name` of the ipynbsrv revision
(`CONTAINER_NAME_PREFIX = 'ipynbsrv-'`, no registry support). -/
def ipynbsrv_get_internal_container_image_name (e : Engine)
    (container : String) (tag : String) : Except BErr String :=
  if !(container_exists e container) then Except.error BErr.containerNotFound
  else match findContainer e container with
    | Option.none => Except.error BErr.containerNotFound
    | Option.some cont =>
      Except.ok (rewriteNameWith (("ipynbsrv-").data) (('/' :: cont.name.data)) tag)

/-- `Docker.create_container_image` of the coco revision: existence precheck,
derive the full internal image name, fail if an image of that name exists,
compute `commit_name`/`tag` by string splitting — this happens BEFORE the
`try` block, so a missing `:` raises a native `IndexError` that escapes the
contract (`pyIndexError`) — then `client.commit`; the optional registry push
(`push=True` and a registry configured) is modelled as a success no-op.
Returns `{KEY_PK: full_image_name}`. -/
def coco_create_container_image (reg : Option String) (e : Engine)
    (container : String) (tag : String) (push : Bool) : Except BErr (String × Engine) :=
  if !(container_exists e container) then Except.error BErr.containerNotFound
  else match coco_get_internal_container_image_name reg e container tag with
    | Except.error er => Except.error er
    | Except.ok full =>
      if docker_container_image_exists e full then
        Except.error (BErr.containerBackend
          (Option.some ("An image with that name already exists for the given container")))
      else
        match (match reg with
               | Option.some _ =>
                 (match pyIdx (splitCh '/' full.data) 0, pyIdx (splitCh '/' full.data) 1,
                        pyIdx (splitCh '/' full.data) 2 with
                  | Except.ok p0, Except.ok p1, Except.ok p2 =>
                    (match pyIdx (splitCh ':' p2) 1 with
                     | Except.ok tg =>
                       Except.ok (p0 ++ ('/' :: p1) ++ ('/' :: (splitCh ':' p2).headD []), tg)
                     | Except.error _ => Except.error ())
                  | _, _, _ => Except.error ())
               | Option.none =>
                 (match pyIdx (splitCh ':' full.data) 1 with
                  | Except.ok tg => Except.ok ((splitCh ':' full.data).headD [], tg)
                  | Except.error _ => Except.error ())) with
        | Except.error _ => Except.error BErr.pyIndexError
        | Except.ok (commitName, tagStr) =>
          match clientCommit e container (String.mk commitName) (String.mk tagStr) with
          | Except.error _ => Except.error (BErr.containerBackend Option.none)
          | Except.ok e2 => Except.ok (full, e2)

/-- `Docker.create_container_snapshot` of the coco revision: delegate to
`create_container_image` with the tag forced to
`CONTAINER_SNAPSHOT_NAME_PREFIX + name` (the reserved marker is
`'snapshot-'`) and `push=False`. -/
def coco_create_container_snapshot (reg : Option String) (e : Engine)
    (container : String) (name : String) : Except BErr (String × Engine) :=
  coco_create_container_image reg e container ("snapshot-" ++ name) false

/-- `Docker.create_container_image` of the ipynbsrv revision: existence
precheck, derive the internal name, fail if taken, then
`client.commit(repository=name.split(':')[0], tag=name.split(':')[1])` —
here the split happens INSIDE the `try`, so a missing `:` is wrapped as
`ContainerBackendError`.  The source returns
`get_container_image(image.get('Id'))`; image ids are identified with the
committed `repository:tag` name in this model. -/
def ipynbsrv_create_container_image (e : Engine)
    (container : String) (tag : String) : Except BErr (String × Engine) :=
  if !(container_exists e container) then Except.error BErr.containerNotFound
  else match ipynbsrv_get_internal_container_image_name e container tag with
    | Except.error er => Except.error er
    | Except.ok full =>
      if docker_container_image_exists e full then
        Except.error (BErr.containerBackend
          (Option.some ("An image with that name already exists for the given container")))
      else
        match pyIdx (splitCh ':' full.data) 1 with
        | Except.error _ => Except.error (BErr.containerBackend Option.none)
        | Except.ok tagStr =>
          match clientCommit e container (String.mk ((splitCh ':' full.data).headD []))
              (String.mk tagStr) with
          | Except.error _ => Except.error (BErr.containerBackend Option.none)
          | Except.ok e2 =>
            Except.ok (String.mk ((splitCh ':' full.data).headD [] ++ (':' :: tagStr)), e2)

/-- `Docker.is_container_snapshot` (identical in both revisions): take
`image.get('RepoTags', [' : '])[0]`, split on every `':'`, and — when there
are at least two segments — test whether the SECOND segment starts with the
reserved `'snapshot-'` marker.  (`RepoTags` is non-empty for every image the
daemon lists; `headD` stands in for the `[0]` indexing.) -/
def is_container_snapshot (image_RepoTags : Option (List String)) : Bool :=
  let parts := splitCh ':' ((image_RepoTags.getD ([" : "])).headD ("")).data
  if parts.length > 1 then (("snapshot-").data).isPrefixOf (parts.getD 1 [])
  else false

/-- The volume target list (`mount_points`) of `create_container`. -/
def mountPointsOf (volumes : List VolumeSpec) : List String :=
  volumes.map (fun v => v.target)

/-- The `binds` list of `create_container`: `"source:target"` per volume. -/
def bindsOf (volumes : List VolumeSpec) : List String :=
  volumes.map (fun b => b.source ++ ":" ++ b.target)

/-- The `port_mappings` dict of the coco revision's `create_container`:
internal port to `(address, external port)`. -/
def portBindingsOf (ports : List PortMapping) : List (Nat × (String × Nat)) :=
  ports.map (fun p => (p.internalPort, (p.address, p.externalPort)))

/-- Whether the registry-pull preamble of the coco revision's
`create_container` gets through its string splitting without an `IndexError`
(`parts = image_pk.split('/')`; with more than two parts the tag comes from
`parts[2].split(':')[1]`, otherwise from `image_pk.split(':')[1]`).  The
split runs inside the `try`, so a failure is wrapped as
`ContainerBackendError`; the `client.pull` itself is modelled as a success
no-op. -/
def pullParses (ipk : String) : Bool :=
  let parts := splitCh '/' ipk.data
  if parts.length > 2 then (splitCh ':' (parts.getD 2 [])).length > 1
  else (splitCh ':' ipk.data).length > 1

/-- `Docker.create_container` of the coco revision.  Control flow from the
source: derive `name = CONTAINER_NAME_PREFIX + 'u%i-%s' % (uid, name)`; fail
with the "already exists" `ContainerBackendError` on a name collision; fail
with `ContainerNotFoundError` when a clone base is given but absent; on the
clone path synthesize the intermediate image
(`create_container_image(clone_of, 'for-clone-' + name + '-at-' + timestamp, push=False)`,
called OUTSIDE the try, so its errors propagate unchanged); then inside the
try: optional registry pull, `client.create_container`, `get_container` on
the new id (the returned record therefore still carries the pre-start
`Stopped` status), `start_container`, any failure wrapped as
`ContainerBackendError`; finally return the plain record or the
clone-composite. -/
def coco_create_container (reg : Option String) (now : Nat) (e : Engine)
    (username : String) (uid : Nat) (name0 : String)
    (ports : List PortMapping) (volumes : List VolumeSpec)
    (cmd : Option String) (base_url : Option String)
    (image : Option String) (clone_of : Option String) :
    Except BErr (CreateRet × Engine) :=
  let name := "coco-" ++ "u" ++ toString uid ++ "-" ++ name0
  if container_exists e name then
    Except.error (BErr.containerBackend (Option.some ("A container with that name already exists")))
  else if (match clone_of with
           | Option.some co => !(container_exists e co)
           | Option.none => false) then
    Except.error BErr.containerNotFound
  else
    match (match clone_of with
           | Option.none => Except.ok ((Option.none : Option String), e)
           | Option.some co =>
             (coco_create_container_image reg e co
                 ("for-clone-" ++ name ++ "-at-" ++ toString now) false).map
               (fun (p : String × Engine) => (Option.some p.1, p.2))) with
    | Except.error er => Except.error er
    | Except.ok (cloneImg, e0) =>
      let image_pk : Option String := match clone_of with
        | Option.some _ => cloneImg
        | Option.none => image
      let mount_points := mountPointsOf volumes
      let binds := bindsOf volumes
      let port_mappings := portBindingsOf ports
      let pullOk : Bool := match reg, clone_of, image_pk with
        | Option.some _, Option.none, Option.some ipk => pullParses ipk
        | Option.some _, Option.none, Option.none => false
        | _, _, _ => true
      if !pullOk then Except.error (BErr.containerBackend Option.none)
      else
        match (match image_pk with
               | Option.none => Except.error DockerErr.server
               | Option.some ipk => clientCreate e0 ipk name) with
        | Except.error _ => Except.error (BErr.containerBackend Option.none)
        | Except.ok e1 =>
          match coco_get_container e1 (freshIdOf e0) with
          | Except.error _ => Except.error (BErr.containerBackend Option.none)
          | Except.ok rec =>
            match coco_start_container e1 rec.pk with
            | Except.error _ => Except.error (BErr.containerBackend Option.none)
            | Except.ok e2 =>
              match clone_of with
              | Option.none => Except.ok (CreateRet.plain rec, e2)
              | Option.some _ => Except.ok (CreateRet.clone rec (cloneImg.getD ("")), e2)

/-- `Docker.get_container` of the ipynbsrv revision: same existence precheck
and pk/status normalization as the coco revision (the additional
port-mappings annotation of its record is not modelled). -/
def ipynbsrv_get_container (e : Engine) (c : String) : Except BErr ContainerRecord :=
  coco_get_container e c

/-- `Docker.create_container` of the ipynbsrv revision.  Its signature is
`create_container(self, name, ports, volumes, cmd=None, image=None, clone_of=None, **kwargs)` —
there is NO uid parameter — and the internal name is derived as
`name = self.CONTAINER_NAME_PREFIX + name` (prefix `'ipynbsrv-'`), with no
owner-uid component.  No registry pull; the started container is otherwise
produced like in the coco revision (its `start_container` carries a
running-state guard, which the freshly created, stopped container passes). -/
def ipynbsrv_create_container (now : Nat) (e : Engine) (name0 : String)
    (ports : List PortMapping) (volumes : List VolumeSpec)
    (cmd : Option String) (image : Option String) (clone_of : Option String) :
    Except BErr (CreateRet × Engine) :=
  let name := "ipynbsrv-" ++ name0
  if container_exists e name then
    Except.error (BErr.containerBackend (Option.some ("A container with that name already exists")))
  else if (match clone_of with
           | Option.some co => !(container_exists e co)
           | Option.none => false) then
    Except.error BErr.containerNotFound
  else
    match (match clone_of with
           | Option.none => Except.ok ((Option.none : Option String), e)
           | Option.some co =>
             (ipynbsrv_create_container_image e co
                 ("for-clone-" ++ name ++ "-at-" ++ toString now)).map
               (fun (p : String × Engine) => (Option.some p.1, p.2))) with
    | Except.error er => Except.error er
    | Except.ok (cloneImg, e0) =>
      let image_pk : Option String := match clone_of with
        | Option.some _ => cloneImg
        | Option.none => image
      let mount_points := mountPointsOf volumes
      let binds := bindsOf volumes
      match (match image_pk with
             | Option.none => Except.error DockerErr.server
             | Option.some ipk => clientCreate e0 ipk name) with
      | Except.error _ => Except.error (BErr.containerBackend Option.none)
      | Except.ok e1 =>
        match ipynbsrv_get_container e1 (freshIdOf e0) with
        | Except.error _ => Except.error (BErr.containerBackend Option.none)
        | Except.ok rec =>
          match ipynbsrv_start_container e1 rec.pk with
          | Except.error _ => Except.error (BErr.containerBackend Option.none)
          | Except.ok e2 =>
            match clone_of with
            | Option.none => Except.ok (CreateRet.plain rec, e2)
            | Option.some _ => Except.ok (CreateRet.clone rec (cloneImg.getD ("")), e2)

/-- `HttpRemote.PLACEHOLDER_CONTAINER`. -/
def PLACEHOLDER_CONTAINER : String := "<container>"

/-- The default slug table assigned by `HttpRemote.__init__` (identical in
both revisions). -/
def defaultSlugs : List (String × String) :=
  [("containers", "/containers"),
   ("container_snapshots", "/containers/<container>/snapshots"),
   ("snapshots", "/containers/snapshots"),
   ("images", "/containers/images")]

/-- `self.slugs.get(key)` on the slug table; every key used by the source is
present in the default table, so the fallback is never taken. -/
def slugGet (slugs : List (String × String)) (k : String) : String :=
  ((slugs.find? (fun p => p.1 == k)).map (fun p => p.2)).getD ("")

/-- `HttpRemote.generate_container_url` of the coco revision:
`url + slugs['containers'] + '/' + standard_b64encode(container)`. -/
def coco_generate_container_url (url container : String) : String :=
  url ++ slugGet defaultSlugs ("containers") ++ "/" ++ standard_b64encode container

/-- `HttpRemote.generate_container_snapshots_url` of the coco revision:
`url + slugs['container_snapshots'].replace('<container>', standard_b64encode(container))`. -/
def coco_generate_container_snapshots_url (url container : String) : String :=
  url ++ String.mk (replaceL (PLACEHOLDER_CONTAINER.data)
    ((standard_b64encode container).data)
    ((slugGet defaultSlugs ("container_snapshots")).data))

/-- `HttpRemote.generate_container_url` of the ipynbsrv revision:
`url + slugs['containers'] + '/' + container` — the RAW identifier is
concatenated, with no encoding step. -/
def ipynbsrv_generate_container_url (url container : String) : String :=
  url ++ slugGet defaultSlugs ("containers") ++ "/" ++ container

/-- `HttpRemote.generate_container_snapshots_url` of the ipynbsrv revision:
raw identifier substituted into the placeholder. -/
def ipynbsrv_generate_container_snapshots_url (url container : String) : String :=
  url ++ String.mk (replaceL (PLACEHOLDER_CONTAINER.data) (container.data)
    ((slugGet defaultSlugs ("container_snapshots")).data))

/-- Outcome of sending one HTTP request: `Option.none` models a
`RequestException` (the request could not be sent), `Option.some code` a
response with that status code. -/
abbrev HttpResp := Option Nat

/-- The response handling shared verbatim by the five state-change operations
of `HttpRemote` (`start_container`, `stop_container`, `restart_container`,
`suspend_container`, `resume_container`; identical in both revisions):
`RequestException → ConnectionError`; 204 → `True`;
404 → `ContainerNotFoundError`; 428 → `IllegalContainerStateError`;
anything else → `ContainerBackendError`.  Each operation is embedded
separately below, mirroring the five copies in the source. -/
def http_start_container (resp : HttpResp) : Except BErr Bool :=
  match resp with
  | Option.none => Except.error BErr.connection
  | Option.some code =>
    if code = 204 then Except.ok true
    else if code = 404 then Except.error BErr.containerNotFound
    else if code = 428 then Except.error BErr.illegalContainerState
    else Except.error (BErr.containerBackend Option.none)

/-- `HttpRemote.stop_container` response handling (same chain). -/
def http_stop_container (resp : HttpResp) : Except BErr Bool :=
  match resp with
  | Option.none => Except.error BErr.connection
  | Option.some code =>
    if code = 204 then Except.ok true
    else if code = 404 then Except.error BErr.containerNotFound
    else if code = 428 then Except.error BErr.illegalContainerState
    else Except.error (BErr.containerBackend Option.none)

/-- `HttpRemote.restart_container` response handling (same chain). -/
def http_restart_container (resp : HttpResp) : Except BErr Bool :=
  match resp with
  | Option.none => Except.error BErr.connection
  | Option.some code =>
    if code = 204 then Except.ok true
    else if code = 404 then Except.error BErr.containerNotFound
    else if code = 428 then Except.error BErr.illegalContainerState
    else Except.error (BErr.containerBackend Option.none)

/-- `HttpRemote.suspend_container` response handling (same chain). -/
def http_suspend_container (resp : HttpResp) : Except BErr Bool :=
  match resp with
  | Option.none => Except.error BErr.connection
  | Option.some code =>
    if code = 204 then Except.ok true
    else if code = 404 then Except.error BErr.containerNotFound
    else if code = 428 then Except.error BErr.illegalContainerState
    else Except.error (BErr.containerBackend Option.none)

/-- `HttpRemote.resume_container` response handling (same chain). -/
def http_resume_container (resp : HttpResp) : Except BErr Bool :=
  match resp with
  | Option.none => Except.error BErr.connection
  | Option.some code =>
    if code = 204 then Except.ok true
    else if code = 404 then Except.error BErr.containerNotFound
    else if code = 428 then Except.error BErr.illegalContainerState
    else Except.error (BErr.containerBackend Option.none)

/-- `HttpRemote.container_is_running` of the coco revision, with the remote
peer — per the spec an HTTP server wrapping a Local Engine Adapter, external
to this repository — serving the adapter's `get_container` record with
200/404 translated into the same error kinds: the proxy then tests
`status == RUNNING or status == SUSPENDED`. -/
def coco_http_container_is_running (e : Engine) (c : String) : Except BErr Bool :=
  match coco_get_container e c with
  | Except.error er => Except.error er
  | Except.ok rec =>
    Except.ok ((rec.status == ContainerStatus.running) || (rec.status == ContainerStatus.suspended))

/-- `HttpRemote.container_is_running` of the ipynbsrv revision (same remote
peer model): the proxy tests only `status == RUNNING`. -/
def ipynbsrv_http_container_is_running (e : Engine) (c : String) : Except BErr Bool :=
  match coco_get_container e c with
  | Except.error er => Except.error er
  | Except.ok rec => Except.ok (rec.status == ContainerStatus.running)

/-- A Python value passed as the `slugs` argument of `HttpRemote.__init__`:
`None`, a dict, or some other object (with its truthiness). -/
inductive SlugsArg
  | pyNone
  | pyDict (entries : List (String × String))
  | pyOther (truthy : Bool)
deriving DecidableEq

/-- Python truthiness of a `SlugsArg` (`if slugs:`): `None` is falsy, a dict
is truthy iff non-empty. -/
def slugsTruthy : SlugsArg → Bool
  | SlugsArg.pyNone => false
  | SlugsArg.pyDict es => !es.isEmpty
  | SlugsArg.pyOther t => t

/-- Errors out of `HttpRemote.__init__`. -/
inductive PyInitErr
  | attributeError
  | valueError
deriving DecidableEq

/-- A constructed `HttpRemote` instance: its `url` and `slugs` attributes. -/
structure HttpRemoteObj where
  url : String
  slugs : List (String × String)
deriving DecidableEq

/-- `HttpRemote.__init__(url, slugs=None)` (identical in both revisions).
The instance starts with NO `slugs` attribute; the source runs
`if slugs: if isinstance(slugs, dict): self.slugs.update(slugs) else: raise ValueError`,
and only afterwards assigns `self.url` and the default `self.slugs` table.
Reading `self.slugs` before it is bound raises an (uncaught) AttributeError,
so the `update` branch always fails; the unreachable arm records what would
happen if the attribute were bound (update, then overwritten by the default
table). -/
def httpRemote_init (url : String) (slugs : SlugsArg) : Except PyInitErr HttpRemoteObj :=
  let slugsAttr : Option (List (String × String)) := Option.none
  if slugsTruthy slugs then
    match slugs with
    | SlugsArg.pyDict _ =>
      match slugsAttr with
      | Option.none => Except.error PyInitErr.attributeError
      | Option.some _ => Except.ok { url := url, slugs := defaultSlugs }
    | _ => Except.error PyInitErr.valueError
  else Except.ok { url := url, slugs := defaultSlugs }

/-- Engine well-formedness: looking any listed container up by its own id
yields that container (ids are unique and not shadowed by another
container's name — always true of a real docker daemon). -/
def Engine.wf (e : Engine) : Prop :=
  ∀ cont ∈ e.containers, findContainer e cont.id = Option.some cont

/-- A running container `c1`. -/
def contRunning : DCont := { id := "c1", name := "web", running := true, paused := false }

/-- A suspended (running and paused) container `c1`. -/
def contSuspended : DCont := { id := "c1", name := "web", running := true, paused := true }

/-- A stopped container `c1`. -/
def contStopped : DCont := { id := "c1", name := "web", running := false, paused := false }

/-- An engine holding one running container. -/
def engRunning : Engine := { containers := [contRunning], images := [], nextId := 0 }

/-- An engine holding one suspended container. -/
def engSuspended : Engine := { containers := [contSuspended], images := [], nextId := 0 }

/-- An engine holding one stopped container. -/
def engStopped : Engine := { containers := [contStopped], images := [], nextId := 0 }

/-- An engine with one conformingly-named running container, for the
snapshot-path scenarios. -/
def engSnap : Engine :=
  { containers := [{ id := "c1", name := "coco-u2500-ipython", running := true, paused := false }],
    images := [], nextId := 0 }

/-- An empty engine holding the base image of spec scenario 1. -/
def engCreate : Engine := { containers := [], images := ["base:latest"], nextId := 0 }

/-- An engine holding one ordinary, non-snapshot image. -/
def engPlainImage : Engine := { containers := [], images := ["ubuntu:latest"], nextId := 0 }

/-- The container record the daemon adds for a `client.create_container` call
with name `n`: fresh id, stopped, unpaused. -/
def createdCont (e : Engine) (n : String) : DCont :=
  { id := freshIdOf e, name := n, running := false, paused := false }

/-- The engine state after a successful `client.create_container` with
name `n`. -/
def engAfterCreate (e : Engine) (n : String) : Engine :=
  { e with containers := createdCont e n :: e.containers, nextId := e.nextId + 1 }

/-- An engine holding no containers at all. -/
def engEmpty : Engine := { containers := [], images := [], nextId := 0 }

/-- An engine holding a container in the anomalous not-running-but-paused
state, on which the delete cascade's `resume_container` step fails (and is
swallowed). -/
def engStoppedPaused : Engine :=
  { containers := [{ id := "c1", name := "web", running := false, paused := true }],
    images := [], nextId := 0 }

theorem strExt (a b : String) (h : a.data = b.data) : a = b := by
  cases a; cases b; exact congrArg String.mk h

theorem matchesKey_of_fields (k : String) (f : DCont → DCont)
    (hf : ∀ x, (f x).id = x.id ∧ (f x).name = x.name) (c : DCont) :
    matchesKey k (f c) = matchesKey k c := by
  unfold matchesKey
  rw [(hf c).1, (hf c).2]

theorem find?_map_upd (k : String) (f : DCont → DCont)
    (hf : ∀ x, (f x).id = x.id ∧ (f x).name = x.name) (l : List DCont) :
    (l.map (fun c => if matchesKey k c then f c else c)).find? (matchesKey k) =
      (l.find? (matchesKey k)).map f := by
  induction l with
  | nil => rfl
  | cons c cs ih =>
    by_cases hc : matchesKey k c
    · simp [List.find?, hc, matchesKey_of_fields k f hf c]
    · simp only [List.map_cons, List.find?]
      rw [if_neg hc]
      simp only [hc, Bool.false_eq_true, if_false]
      exact ih

theorem findContainer_mapCont (e : Engine) (k : String) (f : DCont → DCont)
    (hf : ∀ x, (f x).id = x.id ∧ (f x).name = x.name) :
    findContainer (mapCont e k f) k = (findContainer e k).map f := by
  simpa [findContainer, mapCont] using find?_map_upd k f hf e.containers

theorem clientUnpause_ok_exists (e : Engine) (c : String) (e2 : Engine)
    (h : clientUnpause e c = Except.ok e2) : container_exists e2 c = true := by
  unfold clientUnpause at h
  split at h
  · exact absurd h (by simp)
  · rename_i st hf
    split at h
    · exact absurd h (by simp)
    · have h2 : e2 = mapCont e c (fun x => { x with paused := false }) := by
        injection h with h'; exact h'.symm
      subst h2
      unfold container_exists
      rw [findContainer_mapCont e c (fun x => { x with paused := false }) (fun x => ⟨rfl, rfl⟩), hf]
      rfl

theorem clientStop_ok_exists (e : Engine) (c : String) (e2 : Engine)
    (h : clientStop e c = Except.ok e2) : container_exists e2 c = true := by
  unfold clientStop at h
  split at h
  · exact absurd h (by simp)
  · rename_i st hf
    split at h
    · exact absurd h (by simp)
    · have h2 : e2 = mapCont e c (fun x => { x with running := false }) := by
        injection h with h'; exact h'.symm
      subst h2
      unfold container_exists
      rw [findContainer_mapCont e c (fun x => { x with running := false }) (fun x => ⟨rfl, rfl⟩), hf]
      rfl

theorem clientStart_ok_exists (e : Engine) (c : String) (e2 : Engine)
    (h : clientStart e c = Except.ok e2) : container_exists e2 c = true := by
  unfold clientStart at h
  split at h
  · exact absurd h (by simp)
  · rename_i st hf
    have h2 : e2 = mapCont e c (fun x => { x with running := true }) := by
      injection h with h'; exact h'.symm
    subst h2
    unfold container_exists
    rw [findContainer_mapCont e c (fun x => { x with running := true }) (fun x => ⟨rfl, rfl⟩), hf]
    rfl

theorem coco_resume_ok_exists (e : Engine) (c : String) (e2 : Engine)
    (h : coco_resume_container e c = Except.ok e2) : container_exists e2 c = true := by
  unfold coco_resume_container at h
  split at h
  · exact absurd h (by simp)
  · split at h
    · exact absurd h (by simp)
    · split at h
      · exact absurd h (by simp)
      · split at h
        · exact absurd h (by simp)
        · exact absurd h (by simp)
        · rename_i e3 hu
          have h2 : e2 = e3 := by injection h with h'; exact h'.symm
          subst h2
          exact clientUnpause_ok_exists e c e2 hu

theorem coco_stop_ok_exists (e : Engine) (c : String) (e2 : Engine)
    (h : coco_stop_container e c = Except.ok e2) : container_exists e2 c = true := by
  unfold coco_stop_container at h
  split at h
  · exact absurd h (by simp)
  · have h' : (match clientStop (match coco_resume_container e c with
          | Except.ok e3 => e3
          | Except.error _ => e) c with
        | Except.error DockerErr.notFound => Except.error BErr.containerImageNotFound
        | Except.error _ => Except.error (BErr.containerBackend Option.none)
        | Except.ok e4 => Except.ok e4) = Except.ok e2 := h
    cases hs : clientStop (match coco_resume_container e c with
        | Except.ok e3 => e3
        | Except.error _ => e) c with
    | error er =>
      rw [hs] at h'
      cases er <;> simp at h'
    | ok e3 =>
      rw [hs] at h'
      simp only [Except.ok.injEq] at h'
      rw [← h']
      exact clientStop_ok_exists _ c e3 hs

theorem cascade_exists (e : Engine) (c : String) (h : container_exists e c = true) :
    container_exists (cascadeResumeStop e c) c = true := by
  unfold cascadeResumeStop
  split
  · exact h
  · split
    · exact h
    · rename_i x1 s hs x2 e1 h1
      have he1 : container_exists e1 c = true := by
        cases s with
        | true =>
          rw [if_pos rfl] at h1
          exact coco_resume_ok_exists e c e1 h1
        | false =>
          simp only [Bool.false_eq_true, if_false] at h1
          injection h1 with h1'
          rw [← h1']; exact h
      split
      · exact he1
      · split
        · exact he1
        · rename_i x3 r hr x4 e2 h2
          cases r with
          | true =>
            rw [if_pos rfl] at h2
            exact coco_stop_ok_exists e1 c e2 h2
          | false =>
            simp only [Bool.false_eq_true, if_false] at h2
            injection h2 with h2'
            rw [← h2']; exact he1

theorem find?_filter_not (p : DCont → Bool) (l : List DCont) :
    (l.filter (fun x => !(p x))).find? p = Option.none := by
  induction l with
  | nil => rfl
  | cons x xs ih =>
    by_cases hp : p x = true
    · simp [List.filter_cons, hp, ih]
    · simp only [List.filter_cons]
      have hpf : p x = false := by simpa using hp
      rw [if_pos (by rw [hpf]; rfl : (!(p x)) = true)]
      simp [List.find?_cons, hpf, ih]

theorem any_name_of_find?_none (n : String) (l : List DCont)
    (h : l.find? (matchesKey n) = Option.none) :
    l.any (fun c => c.name == n) = false := by
  induction l with
  | nil => rfl
  | cons x xs ih =>
    by_cases hm : matchesKey n x = true
    · rw [List.find?_cons_of_pos _ hm] at h
      exact absurd h (by simp)
    · have hmf : matchesKey n x = false := by simpa using hm
      rw [List.find?_cons_of_neg _ (by simp [hmf])] at h
      have hname : (x.name == n) = false := by
        unfold matchesKey at hmf
        exact (Bool.or_eq_false_iff.mp hmf).2
      simp [List.any_cons, hname, ih h]

theorem make_conform_of_find (e : Engine) (k : String) (st : DCont)
    (h : findContainer e k = Option.some st) :
    coco_make_container_contract_conform e k =
      Except.ok { pk := k, status := statusOf st.running st.paused } := by
  simp only [coco_make_container_contract_conform, docker_container_is_running,
    docker_container_is_suspended, container_exists, statusOf, h]
  cases hr : st.running <;> cases hp : st.paused <;> simp [hr, hp]

/-- Claim C1: the Local Engine Adapter's status normalization follows the
exact precedence `not running → Stopped`, else `paused → Suspended`, else
`Running`; in particular a not-running container is reported `Stopped`
whatever its paused flag, and `make_container_contract_conform` produces
exactly this status for the inspected container. -/
theorem claim_C1_status_precedence :
    (∀ paused, statusOf false paused = ContainerStatus.stopped) ∧
    statusOf true true = ContainerStatus.suspended ∧
    statusOf true false = ContainerStatus.running ∧
    (∀ (e : Engine) (k : String) (st : DCont), findContainer e k = Option.some st →
      coco_make_container_contract_conform e k =
        Except.ok { pk := k, status := statusOf st.running st.paused }) :=
  ⟨fun _ => rfl, rfl, rfl, fun e k st h => make_conform_of_find e k st h⟩

/-- Witness for C1: normalizing the suspended container `c1` yields status
`Suspended`. -/
theorem claim_C1_witness :
    coco_make_container_contract_conform engSuspended ("c1") =
      Except.ok { pk := "c1", status := ContainerStatus.suspended } := by
  have h := claim_C1_status_precedence.2.2.2 engSuspended ("c1") contSuspended rfl
  simpa [contSuspended, statusOf] using h

/-- Counterexample for C2: in the coco revision the suspended-state guard of
`suspend_container` is commented out, so on a container whose normalized
status is `Suspended` the call does not raise `IllegalState`: it reaches
`client.pause`, whose failure on the already-paused container surfaces as a
generic `ContainerBackendError`. -/
theorem claim_C2_counterexample :
    coco_get_container engSuspended ("c1") =
      Except.ok { pk := "c1", status := ContainerStatus.suspended } ∧
    coco_suspend_container engSuspended ("c1") =
      Except.error (BErr.containerBackend Option.none) ∧
    coco_suspend_container engSuspended ("c1") ≠ Except.error BErr.illegalContainerState :=
  ⟨rfl, rfl, by
    simp [show coco_suspend_container engSuspended ("c1") =
      Except.error (BErr.containerBackend Option.none) from rfl]⟩

/-- Claim C2 (amended): suspend on a `Stopped` container raises
`IllegalState` with no state change in both revisions; on a `Suspended`
container the ipynbsrv revision raises `IllegalState` while the coco revision
surfaces the engine pause failure as `ContainerBackendError`, also without a
state change; from `Running` suspend succeeds in both revisions and the
container's state becomes `Suspended`. -/
theorem claim_C2_amended (e : Engine) (c : String) (st : DCont)
    (h : findContainer e c = Option.some st) :
    (st.running = false →
      coco_suspend_container e c = Except.error BErr.illegalContainerState ∧
      ipynbsrv_suspend_container e c = Except.error BErr.illegalContainerState) ∧
    (st.running = true → st.paused = true →
      ipynbsrv_suspend_container e c = Except.error BErr.illegalContainerState ∧
      coco_suspend_container e c = Except.error (BErr.containerBackend Option.none)) ∧
    (st.running = true → st.paused = false →
      coco_suspend_container e c = Except.ok (mapCont e c (fun x => { x with paused := true })) ∧
      ipynbsrv_suspend_container e c =
        Except.ok (mapCont e c (fun x => { x with paused := true })) ∧
      findContainer (mapCont e c (fun x => { x with paused := true })) c =
        Option.some { st with paused := true } ∧
      statusOf true true = ContainerStatus.suspended) := by
  refine ⟨fun hr => ?_, fun hr hp => ?_, fun hr hp => ?_⟩
  · simp [coco_suspend_container, ipynbsrv_suspend_container, container_exists, h, hr]
  · simp [coco_suspend_container, ipynbsrv_suspend_container, container_exists, clientPause,
      h, hr, hp]
  · simp [coco_suspend_container, ipynbsrv_suspend_container, container_exists, clientPause,
      h, hr, hp, statusOf,
      findContainer_mapCont e c (fun x => { x with paused := true }) (fun x => ⟨rfl, rfl⟩)]

/-- Witness for C2 (amended): suspend on the stopped container raises
`IllegalState` in both revisions, and on the running container succeeds with
the paused flag set. -/
theorem claim_C2_witness :
    (coco_suspend_container engStopped ("c1") = Except.error BErr.illegalContainerState ∧
     ipynbsrv_suspend_container engStopped ("c1") = Except.error BErr.illegalContainerState) ∧
    (coco_suspend_container engRunning ("c1") =
       Except.ok (mapCont engRunning ("c1") (fun x => { x with paused := true })) ∧
     ipynbsrv_suspend_container engRunning ("c1") =
       Except.ok (mapCont engRunning ("c1") (fun x => { x with paused := true })) ∧
     findContainer (mapCont engRunning ("c1") (fun x => { x with paused := true })) ("c1") =
       Option.some { contRunning with paused := true } ∧
     statusOf true true = ContainerStatus.suspended) :=
  ⟨(claim_C2_amended engStopped ("c1") contStopped rfl).1 rfl,
   (claim_C2_amended engRunning ("c1") contRunning rfl).2.2 rfl rfl⟩

/-- Claim C3: the five state-change operations of the Remote Proxy Client
share one exact response mapping: a request that cannot be sent raises
`Connection`; 204 returns `True`; 404 raises the container-appropriate
NotFound error; 428 raises `IllegalState` (never a generic BackendError);
any other status raises `BackendError`.  (The handling chain is identical in
both source revisions.) -/
theorem claim_C3_status_mapping (resp : HttpResp) :
    (http_stop_container resp = http_start_container resp ∧
     http_restart_container resp = http_start_container resp ∧
     http_suspend_container resp = http_start_container resp ∧
     http_resume_container resp = http_start_container resp) ∧
    (resp = Option.none → http_suspend_container resp = Except.error BErr.connection) ∧
    http_suspend_container (Option.some 204) = Except.ok true ∧
    http_suspend_container (Option.some 404) = Except.error BErr.containerNotFound ∧
    http_suspend_container (Option.some 428) = Except.error BErr.illegalContainerState ∧
    (∀ code, resp = Option.some code → code ≠ 204 → code ≠ 404 → code ≠ 428 →
      http_suspend_container resp = Except.error (BErr.containerBackend Option.none)) := by
  refine ⟨?_, ?_, rfl, rfl, rfl, ?_⟩
  · cases resp <;> exact ⟨rfl, rfl, rfl, rfl⟩
  · intro h; subst h; rfl
  · intro code h h204 h404 h428
    subst h
    simp [http_suspend_container, h204, h404, h428]

/-- Witness for C3: HTTP 428 on suspend raises `IllegalState` (spec example
scenario 4), 500 raises `BackendError`, and an unsendable request raises
`Connection`. -/
theorem claim_C3_witness :
    http_suspend_container (Option.some 428) = Except.error BErr.illegalContainerState ∧
    http_suspend_container (Option.some 500) = Except.error (BErr.containerBackend Option.none) ∧
    http_suspend_container Option.none = Except.error BErr.connection :=
  ⟨(claim_C3_status_mapping (Option.some 428)).2.2.2.2.1,
   (claim_C3_status_mapping (Option.some 500)).2.2.2.2.2 500 rfl (by decide) (by decide)
     (by decide),
   (claim_C3_status_mapping Option.none).2.1 rfl⟩

/-- Claim C10: `container_snapshot_exists` delegates directly to
`container_image_exists`, so it answers true for ANY existing image,
regardless of the snapshot naming convention: the ordinary image
`ubuntu:latest` is reported as an existing snapshot even though
`is_container_snapshot` classifies it as a non-snapshot. -/
theorem claim_C10_snapshot_exists :
    (∀ (e : Engine) (x : String),
      docker_container_snapshot_exists e x = docker_container_image_exists e x) ∧
    docker_container_snapshot_exists engPlainImage ("ubuntu:latest") = true ∧
    is_container_snapshot (Option.some ["ubuntu:latest"]) = false :=
  ⟨fun _ _ => rfl, rfl, rfl⟩

/-- Claim C9: constructing `HttpRemote` with a non-empty dict `slugs`
argument raises an unwrapped AttributeError (the source updates `self.slugs`
before that attribute is ever assigned), and consequently every successfully
constructed instance carries exactly the default slug table — caller-supplied
slug overrides can never take effect. -/
theorem claim_C9_init :
    (∀ (url : String) (es : List (String × String)), es ≠ [] →
      httpRemote_init url (SlugsArg.pyDict es) = Except.error PyInitErr.attributeError) ∧
    (∀ (url : String) (a : SlugsArg) (r : HttpRemoteObj),
      httpRemote_init url a = Except.ok r → r.slugs = defaultSlugs) := by
  constructor
  · intro url es hne
    have he : es.isEmpty = false := by
      cases es with
      | nil => exact absurd rfl hne
      | cons a b => rfl
    simp [httpRemote_init, slugsTruthy, he]
  · intro url a r h
    cases a with
    | pyNone =>
      simp only [httpRemote_init, slugsTruthy, Bool.false_eq_true, if_false] at h
      injection h with h'
      rw [← h']
    | pyDict es =>
      cases es with
      | nil =>
        simp only [httpRemote_init, slugsTruthy, List.isEmpty_nil, Bool.not_true,
          Bool.false_eq_true, if_false] at h
        injection h with h'
        rw [← h']
      | cons p ps =>
        simp [httpRemote_init, slugsTruthy] at h
    | pyOther t =>
      cases t with
      | false =>
        simp only [httpRemote_init, slugsTruthy, Bool.false_eq_true, if_false] at h
        injection h with h'
        rw [← h']
      | true =>
        simp [httpRemote_init, slugsTruthy] at h

/-- Witness for C9: a one-entry slug dict makes the constructor raise
AttributeError, and the instance constructed with `slugs=None` carries the
default slug table. -/
theorem claim_C9_witness :
    httpRemote_init ("http://my.remote.ip:8080") (SlugsArg.pyDict [("containers", "/x")]) =
      Except.error PyInitErr.attributeError ∧
    ({ url := "http://my.remote.ip:8080", slugs := defaultSlugs } : HttpRemoteObj).slugs =
      defaultSlugs :=
  ⟨claim_C9_init.1 ("http://my.remote.ip:8080") [("containers", "/x")] (by simp),
   claim_C9_init.2 ("http://my.remote.ip:8080") SlugsArg.pyNone
     { url := "http://my.remote.ip:8080", slugs := defaultSlugs } rfl⟩

/-- Counterexample for C5: on a `Suspended` container the ipynbsrv revision's
remote `container_is_running` (which tests only `status == RUNNING`) answers
`false` while the Local Engine Adapter's `container_is_running` (docker's
`Running` flag, which is true for a paused container) answers `true` — the
two implementations are distinguishable on this query. -/
theorem claim_C5_counterexample :
    docker_container_is_running engSuspended ("c1") = Except.ok true ∧
    ipynbsrv_http_container_is_running engSuspended ("c1") = Except.ok false :=
  ⟨rfl, rfl⟩

/-- Claim C5 (amended): in the coco revision the remote
`container_is_running` (status `Running` OR `Suspended`) agrees with the
Local Engine Adapter's `container_is_running` on every container and engine
state (including the not-found error); the ipynbsrv revision disagrees on
`Suspended` containers. -/
theorem claim_C5_amended (e : Engine) (c : String) (hwf : Engine.wf e) :
    coco_http_container_is_running e c = docker_container_is_running e c := by
  unfold coco_http_container_is_running coco_get_container docker_container_is_running
    container_exists
  cases hf : findContainer e c with
  | none => simp
  | some st =>
    simp only [Option.isSome_some, Bool.not_true, Bool.false_eq_true, if_false]
    have hst : findContainer e st.id = Option.some st :=
      hwf st (List.mem_of_find?_eq_some hf)
    rw [make_conform_of_find e st.id st hst]
    cases hr : st.running <;> cases hp : st.paused <;>
      simp [statusOf, hr, hp] <;> decide

/-- Witness for C5 (amended): on the engine holding the suspended container
the coco remote query and the local query coincide (both `true`). -/
theorem claim_C5_witness :
    coco_http_container_is_running engSuspended ("c1") =
      docker_container_is_running engSuspended ("c1") ∧
    docker_container_is_running engSuspended ("c1") = Except.ok true :=
  ⟨claim_C5_amended engSuspended ("c1") (by
      intro cont hc
      simp only [engSuspended, List.mem_singleton] at hc
      subst hc
      rfl), rfl⟩

theorem coco_delete_of_exists (e : Engine) (c : String) (h : container_exists e c = true) :
    coco_delete_container e c =
      Except.ok { cascadeResumeStop e c with
        containers := (cascadeResumeStop e c).containers.filter (fun x => !(matchesKey c x)) } := by
  obtain ⟨st1, hst1⟩ : ∃ st1, findContainer (cascadeResumeStop e c) c = Option.some st1 := by
    have hx := cascade_exists e c h
    unfold container_exists at hx
    exact Option.isSome_iff_exists.mp hx
  unfold coco_delete_container
  rw [if_neg (by rw [h]; simp)]
  show (match clientRemove (cascadeResumeStop e c) c true with
    | Except.error DockerErr.notFound => Except.error BErr.containerNotFound
    | Except.error _ => Except.error (BErr.containerBackend Option.none)
    | Except.ok e2 => Except.ok e2) = _
  simp only [clientRemove, hst1, Bool.not_true, Bool.false_and, Bool.false_eq_true, if_false]

/-- Counterexample for C4: the ipynbsrv revision's `delete_container` has no
resume-then-stop cascade at all; with the default `force=False` it raises
`IllegalState` on a running container instead of deleting it. -/
theorem claim_C4_counterexample :
    ipynbsrv_delete_container engRunning ("c1") false = Except.error BErr.illegalContainerState :=
  rfl

/-- Claim C4 (amended, holding for the coco revision): `delete_container`
raises `ContainerNotFound` on a nonexistent container (never silently
succeeds); on an existing container — in any lifecycle state, including
states where the best-effort resume/stop cascade fails and is swallowed — it
returns successfully with the container removed; the only error it can raise
is the final remove call's `ContainerNotFound` (in particular never
`IllegalState`).  The ipynbsrv revision instead has no cascade and raises
`IllegalState` on a running container unless `force` is set. -/
theorem claim_C4_amended (e : Engine) (c : String) :
    (container_exists e c = false →
      coco_delete_container e c = Except.error BErr.containerNotFound) ∧
    (container_exists e c = true →
      ∃ e2, coco_delete_container e c = Except.ok e2 ∧ container_exists e2 c = false) ∧
    (∀ er, coco_delete_container e c = Except.error er → er = BErr.containerNotFound) := by
  refine ⟨fun h => ?_, fun h => ?_, fun er her => ?_⟩
  · simp [coco_delete_container, h]
  · refine ⟨_, coco_delete_of_exists e c h, ?_⟩
    unfold container_exists findContainer
    rw [find?_filter_not (matchesKey c) (cascadeResumeStop e c).containers]
    rfl
  · by_cases hex : container_exists e c = true
    · rw [coco_delete_of_exists e c hex] at her
      exact absurd her (by simp)
    · have hf : container_exists e c = false := by simpa using hex
      rw [show coco_delete_container e c = Except.error BErr.containerNotFound by
        simp [coco_delete_container, hf]] at her
      injection her with h'
      exact h'.symm

/-- Witness for C4 (amended): deleting `c1` from the engine where the cascade's
resume step fails (stopped-but-paused container) still succeeds and removes
the container; deleting from the empty engine raises `ContainerNotFound`. -/
theorem claim_C4_witness :
    (∃ e2, coco_delete_container engStoppedPaused ("c1") = Except.ok e2 ∧
      container_exists e2 ("c1") = false) ∧
    coco_delete_container engEmpty ("c1") = Except.error BErr.containerNotFound :=
  ⟨(claim_C4_amended engStoppedPaused ("c1")).2.1 rfl,
   (claim_C4_amended engEmpty ("c1")).1 rfl⟩

theorem replace_slug_eval (rep : List Char) :
    replaceL (PLACEHOLDER_CONTAINER.data) rep
      ((slugGet defaultSlugs ("container_snapshots")).data) =
    ("/containers/").data ++ (rep ++ ("/snapshots").data) := rfl

/-- Counterexample for C8: the ipynbsrv revision's `generate_container_url`
concatenates the RAW identifier (no encoding step): the identifier `a b`,
unsafe in a URL path segment, appears verbatim in the generated URL, which is
not the substitution of its encoded form. -/
theorem claim_C8_counterexample :
    ipynbsrv_generate_container_url ("http://h") ("a b") = "http://h/containers/a b" ∧
    standard_b64encode ("a b") = "YSBi" ∧
    ("http://h/containers/a b" : String) ≠ "http://h/containers/" ++ standard_b64encode ("a b") :=
  ⟨rfl, rfl, by decide⟩

/-- Claim C8 (amended, holding for the coco revision): the coco revision's
URL generation substitutes the `standard_b64encode`-encoded identifier into
the slug template — for the container slug by appending, for the nested
snapshot-collection slug by replacing the `<container>` placeholder — never
the raw identifier.  (The ipynbsrv revision concatenates raw identifiers,
and standard — not urlsafe — base64 output can itself contain `/`, e.g.
`standard_b64encode("???") = "Pz8/"`.) -/
theorem claim_C8_amended (url c : String) :
    coco_generate_container_url url c = url ++ "/containers/" ++ standard_b64encode c ∧
    coco_generate_container_snapshots_url url c =
      url ++ "/containers/" ++ standard_b64encode c ++ "/snapshots" := by
  constructor
  · apply strExt
    unfold coco_generate_container_url
    simp only [String.data_append,
      show slugGet defaultSlugs ("containers") = "/containers" from rfl]
    simp [List.append_assoc]
  · apply strExt
    unfold coco_generate_container_snapshots_url
    simp only [String.data_append]
    rw [replace_slug_eval ((standard_b64encode c).data)]
    simp [List.append_assoc]
theorem coco_create_ok_case (now : Nat) (e : Engine) (username : String) (uid : Nat)
    (name0 : String) (ports : List PortMapping) (volumes : List VolumeSpec)
    (cmd base_url : Option String) (i : String)
    (h1 : container_exists e ("coco-" ++ "u" ++ toString uid ++ "-" ++ name0) = false)
    (h2 : e.images.contains i = true) :
    ∃ e2, coco_create_container Option.none now e username uid name0 ports volumes cmd base_url
        (Option.some i) Option.none =
      Except.ok (CreateRet.plain { pk := freshIdOf e, status := ContainerStatus.stopped }, e2) ∧
      findContainer e2 ("coco-" ++ "u" ++ toString uid ++ "-" ++ name0) =
        Option.some { id := freshIdOf e, name := "coco-" ++ "u" ++ toString uid ++ "-" ++ name0,
                      running := true, paused := false } := by
  have hfn : findContainer e ("coco-" ++ "u" ++ toString uid ++ "-" ++ name0) = Option.none := by
    cases hfn : findContainer e ("coco-" ++ "u" ++ toString uid ++ "-" ++ name0) with
    | none => rfl
    | some st =>
      exfalso
      unfold container_exists at h1
      rw [hfn] at h1
      simp at h1
  have hany : e.containers.any
      (fun cc => cc.name == ("coco-" ++ "u" ++ toString uid ++ "-" ++ name0)) = false :=
    any_name_of_find?_none _ e.containers hfn
  have hcc : clientCreate e i ("coco-" ++ "u" ++ toString uid ++ "-" ++ name0) =
      Except.ok (engAfterCreate e ("coco-" ++ "u" ++ toString uid ++ "-" ++ name0)) := by
    unfold clientCreate
    rw [if_neg (by rw [h2]; simp), if_neg (by rw [hany]; simp)]
    rfl
  have hfind1 : findContainer (engAfterCreate e ("coco-" ++ "u" ++ toString uid ++ "-" ++ name0))
        (freshIdOf e) =
      Option.some (createdCont e ("coco-" ++ "u" ++ toString uid ++ "-" ++ name0)) := by
    unfold findContainer engAfterCreate
    rw [List.find?_cons_of_pos]
    unfold matchesKey createdCont
    simp
  have hget : coco_get_container (engAfterCreate e ("coco-" ++ "u" ++ toString uid ++ "-" ++ name0))
        (freshIdOf e) =
      Except.ok { pk := freshIdOf e, status := ContainerStatus.stopped } := by
    unfold coco_get_container container_exists
    simp only [hfind1, Option.isSome_some, Bool.not_true, Bool.false_eq_true, if_false]
    rw [make_conform_of_find _ _ _ (show findContainer _ ((createdCont e _).id) = _ from hfind1)]
    rfl
  have hstart : coco_start_container
        (engAfterCreate e ("coco-" ++ "u" ++ toString uid ++ "-" ++ name0)) (freshIdOf e) =
      Except.ok (mapCont (engAfterCreate e ("coco-" ++ "u" ++ toString uid ++ "-" ++ name0))
        (freshIdOf e) (fun x => { x with running := true })) := by
    unfold coco_start_container container_exists clientStart
    simp only [hfind1, Option.isSome_some, Bool.not_true, Bool.false_eq_true, if_false]
  refine ⟨mapCont (engAfterCreate e ("coco-" ++ "u" ++ toString uid ++ "-" ++ name0))
    (freshIdOf e) (fun x => { x with running := true }), ?_, ?_⟩
  · simp only [coco_create_container, h1, Bool.not_false, if_true, Bool.false_eq_true, if_false,
      hcc, hget, hstart]
    rfl
  · unfold mapCont engAfterCreate
    simp only [List.map_cons]
    rw [if_pos (show matchesKey (freshIdOf e)
      (createdCont e ("coco-" ++ "u" ++ toString uid ++ "-" ++ name0)) = true by
        unfold matchesKey createdCont; simp)]
    unfold findContainer
    rw [List.find?_cons_of_pos]
    · unfold createdCont
      rfl
    · unfold matchesKey createdCont
      simp

/-- Counterexample for C6: the ipynbsrv revision's `create_container` has no
uid parameter at all and derives the internal name as
`CONTAINER_NAME_PREFIX + name` — for the spec's scenario 1 inputs
(name `ipython`, owner uid 2500) the created container is named
`ipynbsrv-ipython`, not `{prefix}u2500-ipython`. -/
theorem claim_C6_counterexample :
    ipynbsrv_create_container 0 engCreate ("ipython") [] [] Option.none
        (Option.some ("base:latest")) Option.none =
      Except.ok (CreateRet.plain { pk := "cid-0", status := ContainerStatus.stopped },
        { containers := [{ id := "cid-0", name := "ipynbsrv-ipython", running := true,
                           paused := false }],
          images := ["base:latest"], nextId := 1 }) ∧
    ("ipynbsrv-ipython" : String) ≠ "ipynbsrv-" ++ "u" ++ toString 2500 ++ "-" ++ "ipython" :=
  ⟨rfl, by decide⟩

/-- Claim C6 (amended, holding for the coco revision): `create_container`
derives the internal name `{prefix}u{uid}-{name}` (`coco-u2500-ipython` for
scenario 1); a collision raises the "already exists" `ContainerBackendError`
(not IllegalState); on success the engine's new container carries the derived
name and is running (creation issues an implicit start; the record returned
to the caller was fetched before that start and so still reads `Stopped`).
The ipynbsrv revision derives `{prefix}{name}` with no uid component. -/
theorem claim_C6_amended (now : Nat) (e : Engine) (username : String) (uid : Nat)
    (name0 : String) (ports : List PortMapping) (volumes : List VolumeSpec)
    (cmd base_url : Option String) (i : String) :
    (∀ (reg img clone_of : Option String),
      container_exists e ("coco-" ++ "u" ++ toString uid ++ "-" ++ name0) = true →
      coco_create_container reg now e username uid name0 ports volumes cmd base_url img clone_of =
        Except.error (BErr.containerBackend
          (Option.some ("A container with that name already exists")))) ∧
    (container_exists e ("coco-" ++ "u" ++ toString uid ++ "-" ++ name0) = false →
     e.images.contains i = true →
      (∃ e2, coco_create_container Option.none now e username uid name0 ports volumes cmd base_url
          (Option.some i) Option.none =
        Except.ok (CreateRet.plain { pk := freshIdOf e, status := ContainerStatus.stopped }, e2) ∧
        findContainer e2 ("coco-" ++ "u" ++ toString uid ++ "-" ++ name0) =
          Option.some { id := freshIdOf e, name := "coco-" ++ "u" ++ toString uid ++ "-" ++ name0,
                        running := true, paused := false }) ∧
      statusOf true false = ContainerStatus.running) := by
  constructor
  · intro reg img clone_of h
    unfold coco_create_container
    rw [if_pos h]
  · intro h1 h2
    exact ⟨coco_create_ok_case now e username uid name0 ports volumes cmd base_url i h1 h2, rfl⟩

/-- Witness for C6 (amended): scenario 1 on the engine holding `base:latest`
creates `coco-u2500-ipython` running; on the engine already holding a
container of that name, creation fails with the "already exists" error. -/
theorem claim_C6_witness :
    coco_create_container Option.none 0 engSnap ("alice") 2500 ("ipython") [] []
        Option.none Option.none (Option.some ("base:latest")) Option.none =
      Except.error (BErr.containerBackend
        (Option.some ("A container with that name already exists"))) ∧
    ((∃ e2, coco_create_container Option.none 0 engCreate ("alice") 2500 ("ipython") [] []
        Option.none Option.none (Option.some ("base:latest")) Option.none =
      Except.ok (CreateRet.plain { pk := freshIdOf engCreate, status := ContainerStatus.stopped },
        e2) ∧
      findContainer e2 ("coco-" ++ "u" ++ toString 2500 ++ "-" ++ "ipython") =
        Option.some { id := freshIdOf engCreate,
                      name := "coco-" ++ "u" ++ toString 2500 ++ "-" ++ "ipython",
                      running := true, paused := false }) ∧
     statusOf true false = ContainerStatus.running) :=
  ⟨(claim_C6_amended 0 engSnap ("alice") 2500 ("ipython") [] [] Option.none Option.none
      ("base:latest")).1 Option.none (Option.some ("base:latest")) Option.none rfl,
   (claim_C6_amended 0 engCreate ("alice") 2500 ("ipython") [] [] Option.none Option.none
      ("base:latest")).2 rfl rfl⟩

theorem splitCh_ne_nil (sep : Char) (l : List Char) : splitCh sep l ≠ [] := by
  induction l with
  | nil => simp [splitCh]
  | cons x xs ih =>
    simp only [splitCh]
    cases h : splitCh sep xs with
    | nil => simp
    | cons a t =>
      by_cases hx : x = sep <;> simp [hx]

theorem splitCh_append (sep : Char) (p l : List Char) (hp : sep ∉ p) (h : List Char)
    (t : List (List Char)) (hl : splitCh sep l = h :: t) :
    splitCh sep (p ++ l) = (p ++ h) :: t := by
  induction p with
  | nil => simpa using hl
  | cons a q ih =>
    have ha : a ≠ sep := by intro hh; exact hp (by simp [hh])
    have hq : sep ∉ q := fun hh => hp (by simp [hh])
    have h2 := ih hq
    simp only [List.cons_append, splitCh, List.append_eq]
    rw [h2]
    simp [ha]

theorem splitCh_not_mem (sep : Char) (l : List Char) (h : sep ∉ l) : splitCh sep l = [l] := by
  induction l with
  | nil => rfl
  | cons x xs ih =>
    have hx : x ≠ sep := by intro hh; exact h (by simp [hh])
    have hxs : sep ∉ xs := fun hh => h (by simp [hh])
    simp only [splitCh, ih hxs, hx, if_false]

theorem splitCh_cons_self (sep : Char) (l : List Char) :
    splitCh sep (sep :: l) = [] :: splitCh sep l := by
  simp only [splitCh]
  cases h : splitCh sep l with
  | nil => exact absurd h (splitCh_ne_nil sep l)
  | cons a t => simp

theorem isPrefixOf_append_self (p x : List Char) : p.isPrefixOf (p ++ x) = true := by
  induction p with
  | nil => simp [List.isPrefixOf]
  | cons a t ih => simp [List.isPrefixOf, ih]

theorem takeWhile_digits (ds rest : List Char) (h : ∀ ch ∈ ds, ch.isDigit = true) :
    (ds ++ ('-' :: rest)).takeWhile Char.isDigit = ds := by
  induction ds with
  | nil => simp [List.takeWhile]
  | cons a t ih =>
    have ha := h a (by simp)
    simp only [List.cons_append, List.takeWhile, ha]
    rw [List.cons_inj_right]
    exact ih (fun ch hc => h ch (by simp [hc]))

theorem dropWhile_digits (ds rest : List Char) (h : ∀ ch ∈ ds, ch.isDigit = true) :
    (ds ++ ('-' :: rest)).dropWhile Char.isDigit = '-' :: rest := by
  induction ds with
  | nil => simp [List.dropWhile]
  | cons a t ih =>
    have ha := h a (by simp)
    simp only [List.cons_append, List.dropWhile, ha]
    exact ih (fun ch hc => h ch (by simp [hc]))

theorem parseNameWith_conforming (ds rest : List Char)
    (hds : ds ≠ []) (hdig : ∀ ch ∈ ds, ch.isDigit = true) (hrest : rest ≠ []) :
    parseNameWith (("coco-").data)
      ('/' :: (("coco-").data ++ ('u' :: (ds ++ ('-' :: rest))))) =
    Option.some (ds, rest) := by
  have hshape : ('/' :: (("coco-").data ++ ('u' :: (ds ++ ('-' :: rest))))) =
      ((('/' :: ("coco-").data) ++ ['u']) ++ (ds ++ ('-' :: rest))) := by
    simp
  unfold parseNameWith
  rw [hshape, isPrefixOf_append_self, if_pos rfl]
  rw [show (("coco-").data.length + 2) = (('/' :: ("coco-").data) ++ ['u']).length from by simp,
    List.drop_left]
  simp only [takeWhile_digits ds rest hdig, dropWhile_digits ds rest hdig]
  rw [if_neg (by simp [hds, hrest])]
theorem data_mk (l : List Char) : (String.mk l).data = l := rfl

theorem c7_first (ds rest : List Char) (sname : String)
    (hds : ds ≠ []) (hdig : ∀ ch ∈ ds, ch.isDigit = true) (hrest : rest ≠ [])
    (hrc : ':' ∉ rest) :
    is_container_snapshot (Option.some [rewriteNameWith (("coco-").data)
        ('/' :: (("coco-").data ++ ('u' :: (ds ++ ('-' :: rest)))))
        ("snapshot-" ++ sname)]) = true := by
  have hu : (':' : Char) ∉ ('u' :: ds) := by
    intro hm
    rcases List.mem_cons.mp hm with he | hm2
    · exact absurd he (by decide)
    · exact absurd (hdig ':' hm2) (by decide)
  have hsl : (':' : Char) ∉ ('/' :: rest) := by
    intro hm
    rcases List.mem_cons.mp hm with he | hm2
    · exact absurd he (by decide)
    · exact hrc hm2
  have hrcolon : (':' : Char) ∉ ("coco-").data ++ ('u' :: ds) ++ ('/' :: rest) := by
    intro hmem
    rcases List.mem_append.mp hmem with hm | hm2
    · rcases List.mem_append.mp hm with ha | hb
      · exact absurd ha (by decide)
      · exact hu hb
    · exact hsl hm2
  obtain ⟨hh, tt, hht⟩ : ∃ hh tt, splitCh ':' sname.data = hh :: tt := by
    cases hsp : splitCh ':' sname.data with
    | nil => exact absurd hsp (splitCh_ne_nil _ _)
    | cons a b => exact ⟨a, b, rfl⟩
  have hT : splitCh ':' ((':' : Char) :: ("snapshot-" ++ sname).data) =
      [] :: ((("snapshot-").data ++ hh) :: tt) := by
    rw [splitCh_cons_self, String.data_append]
    rw [splitCh_append ':' (("snapshot-").data) sname.data (by decide) hh tt hht]
  have hL : splitCh ':' ((("coco-").data ++ ('u' :: ds) ++ ('/' :: rest)) ++
        ((':' : Char) :: ("snapshot-" ++ sname).data)) =
      ((("coco-").data ++ ('u' :: ds) ++ ('/' :: rest)) ++ []) ::
        ((("snapshot-").data ++ hh) :: tt) :=
    splitCh_append ':' _ _ hrcolon _ _ hT
  simp only [rewriteNameWith, parseNameWith_conforming ds rest hds hdig hrest]
  unfold is_container_snapshot
  simp only [Option.getD_some, List.headD_cons, data_mk, List.append_assoc] at hL ⊢
  rw [hL]
  rw [if_pos (by simp)]
  simp only [List.getD_cons_succ, List.getD_cons_zero]
  exact isPrefixOf_append_self _ _

theorem c7_second (repo tag : List Char) (hrp : ':' ∉ repo) (htc : ':' ∉ tag) :
    is_container_snapshot (Option.some [String.mk (repo ++ (':' :: tag))]) =
      (("snapshot-").data).isPrefixOf tag := by
  have hsp : splitCh ':' (repo ++ ((':' : Char) :: tag)) = (repo ++ []) :: [tag] := by
    rw [splitCh_append ':' repo _ hrp _ _ (by rw [splitCh_cons_self, splitCh_not_mem ':' tag htc])]
  unfold is_container_snapshot
  simp only [Option.getD_some, List.headD_cons, data_mk]
  rw [hsp]
  rw [if_pos (by simp)]
  simp only [List.getD_cons_succ, List.getD_cons_zero]

/-- Counterexample for C7: with a port-qualified registry (`myreg:5000`,
containing a colon) the snapshot path itself produces the image
`myreg:5000/coco-u2500/ipython:snapshot-v1` — its tag carries the reserved
marker — yet `is_container_snapshot` reports `false`, because the check
splits the name on EVERY colon and inspects the segment after the first one
(here `5000/coco-u2500/ipython`), not the tag. -/
theorem claim_C7_counterexample :
    coco_create_container_snapshot (Option.some ("myreg:5000")) engSnap ("c1") ("v1") =
      Except.ok ("myreg:5000/coco-u2500/ipython:snapshot-v1",
        { containers := [{ id := "c1", name := "coco-u2500-ipython", running := true,
                           paused := false }],
          images := ["myreg:5000/coco-u2500/ipython:snapshot-v1"], nextId := 0 }) ∧
    is_container_snapshot (Option.some ["myreg:5000/coco-u2500/ipython:snapshot-v1"]) = false :=
  ⟨rfl, rfl⟩

/-- Claim C7 (amended): provided the image name contains no colon before the
tag separator — i.e. no port-qualified registry — the duality holds and is
decided purely from the name: every image produced by the registry-free
snapshot path (container name `coco-u{digits}-{rest}`, tag forced to
`snapshot-{name}`) satisfies `is_container_snapshot`, and a regular image
`repo:tag` satisfies it exactly when its tag starts with the reserved
`snapshot-` marker (so never when the tag does not start with it). -/
theorem claim_C7_amended (ds rest : List Char) (sname : String) (repo tag : List Char)
    (hds : ds ≠ []) (hdig : ∀ ch ∈ ds, ch.isDigit = true) (hrest : rest ≠ [])
    (hrc : ':' ∉ rest) (hrp : ':' ∉ repo) (htc : ':' ∉ tag) :
    is_container_snapshot (Option.some [rewriteNameWith (("coco-").data)
        ('/' :: (("coco-").data ++ ('u' :: (ds ++ ('-' :: rest)))))
        ("snapshot-" ++ sname)]) = true ∧
    is_container_snapshot (Option.some [String.mk (repo ++ (':' :: tag))]) =
      (("snapshot-").data).isPrefixOf tag :=
  ⟨c7_first ds rest sname hds hdig hrest hrc, c7_second repo tag hrp htc⟩

/-- Witness for C7 (amended): the scenario-3 instance — container
`coco-u2500-ipython`, snapshot name `v1` — is classified as a snapshot, and
the regular image `ubuntu:latest` is not. -/
theorem claim_C7_witness :
    is_container_snapshot (Option.some [rewriteNameWith (("coco-").data)
        ('/' :: (("coco-").data ++ ('u' :: ((("2500").data) ++ ('-' :: (("ipython").data))))))
        ("snapshot-" ++ "v1")]) = true ∧
    is_container_snapshot (Option.some [String.mk ((("ubuntu").data) ++
        (':' :: (("latest").data)))]) =
      (("snapshot-").data).isPrefixOf (("latest").data) :=
  ⟨(claim_C7_amended (("2500").data) (("ipython").data) ("v1") (("ubuntu").data)
      (("latest").data) (by decide) (by decide) (by decide) (by decide) (by decide)
      (by decide)).1,
   (claim_C7_amended (("2500").data) (("ipython").data) ("v1") (("ubuntu").data)
      (("latest").data) (by decide) (by decide) (by decide) (by decide) (by decide)
      (by decide)).2⟩
